import Mathlib

/-!
Shallow embedding of the thermal-monitor-gui core (src/thermal-monitor-gui/src/system.rs
and src/thermal-monitor-gui/src/app.rs).

Modelling conventions:
- `f32` values are modelled by exact rationals (`ℚ`); the source's arithmetic on the
  modelled paths is subtraction, comparison against small literal constants, one
  multiplication by `0.45` or `1.1`, and one division, all far from `f32` precision
  or range limits at the claims' sample points.  Non-finite `f32` inputs to the
  thermal-zone classifier are modelled explicitly by the `F32` type, whose `lt`
  follows IEEE-754 comparison (every comparison involving NaN is false).
- `u8`/`u32` values are modelled by `ℕ`, with `% 256` written out where the source
  performs `u8` addition that can wrap.
- Rust's saturating `as u8` cast from `f32` (truncate toward zero, clamp to `[0,255]`,
  NaN to 0) is `rustAsU8`.
- Fallible sensor reads become `Option` inputs: `none` is a failed read, `some v` a
  successful read of the already-parsed, already-scaled value.  Fallible actuation
  calls become `Bool` outcome parameters (`true` = the external command succeeded),
  and the issued requests are collected in a list in issue order.
-/

/-- Thermal attenuation factor for keyboard temperature estimation
(`THERMAL_ATTENUATION` in system.rs). -/
def THERMAL_ATTENUATION : ℚ := 0.45

/-- Default ambient temperature when not measurable (`DEFAULT_AMBIENT` in system.rs). -/
def DEFAULT_AMBIENT : ℚ := 28

/-- CPU mode enumeration (`Mode` in system.rs). -/
inductive Mode where
  | Performance
  | Comfort
  | Balanced
  | Quiet
  | Auto
  | Unknown
deriving DecidableEq

/-- Thermal zone classification (`ThermalZone` in system.rs). -/
inductive ThermalZone where
  | Cool
  | Comfort
  | Optimal
  | Warm
  | Hot
  | Critical
deriving DecidableEq

/-- An `f32` value: NaN, an infinity, or a finite value modelled as an exact rational. -/
inductive F32 where
  | nan
  | negInf
  | finite (q : ℚ)
  | posInf
deriving DecidableEq

/-- IEEE-754 `<` on `F32`: false whenever either side is NaN, `-inf` below every
non-NaN value but itself, `+inf` above every non-NaN value but itself. -/
def F32.lt : F32 → F32 → Bool
  | .nan, _ => false
  | _, .nan => false
  | .negInf, .negInf => false
  | .negInf, _ => true
  | _, .negInf => false
  | .finite a, .finite b => decide (a < b)
  | .finite _, .posInf => true
  | .posInf, _ => false

/-- `ThermalZone::from_cpu_temp` in system.rs: the guard cascade
`t < 40.0 / t < 45.0 / t < 50.0 / t < 55.0 / t < 65.0 / catch-all`. -/
def ThermalZone.from_cpu_temp (temp : F32) : ThermalZone :=
  if temp.lt (.finite 40) then .Cool
  else if temp.lt (.finite 45) then .Comfort
  else if temp.lt (.finite 50) then .Optimal
  else if temp.lt (.finite 55) then .Warm
  else if temp.lt (.finite 65) then .Hot
  else .Critical

/-- `calculate_keyboard_temp` in system.rs:
`T_kbd = T_amb + (T_cpu - T_amb) * THERMAL_ATTENUATION`. -/
def calculate_keyboard_temp (cpu_temp ambient_temp : ℚ) : ℚ :=
  ambient_temp + (cpu_temp - ambient_temp) * THERMAL_ATTENUATION

/-- Rust's saturating `as u8` cast from `f32`: NaN and negatives to 0, values above
255 to 255, otherwise truncation toward zero (= floor on the non-negative range).
Only finite values reach this cast on the modelled paths, so it takes a `ℚ`. -/
def rustAsU8 (q : ℚ) : ℕ :=
  if q < 0 then 0 else if 255 < q then 255 else (Int.floor q).toNat

/-- `calc_perf_for_target` in system.rs.  Below (or at) target:
`(current_perf as f32 * 1.1).min(100.0) as u8`; above target:
`((current_perf as f32 * (target/current)) as u8).clamp(20, 100)`
(Rust `clamp(lo, hi)` is `max lo` then `min hi`). -/
def calc_perf_for_target (current_temp target_temp : ℚ) (current_perf : ℕ) : ℕ :=
  if current_temp ≤ target_temp then
    rustAsU8 (min ((current_perf : ℚ) * 1.1) 100)
  else
    let ratio := target_temp / current_temp
    min (max (rustAsU8 ((current_perf : ℚ) * ratio)) 20) 100

/-- One request issued to the actuation gateway (`set_fan_boost` / `set_perf_pct`). -/
inductive Request where
  | fanBoost (enable : Bool)
  | perfPct (pct : ℕ)
deriving DecidableEq

/-- Outcome of `apply_thermal_control`: Rust's `io::Result<String>`. -/
inductive CtrlResult where
  | ok (msg : String)
  | err (msg : String)
deriving DecidableEq

/-- The observable behaviour of one `apply_thermal_control` call: the actuation
requests issued, in order, and the returned result. -/
structure ControlOutcome where
  requests : List Request
  result : CtrlResult
deriving DecidableEq

/-- `apply_thermal_control` in system.rs.  `current_perf` is the value of
`read_perf_pct().unwrap_or(75)` (a `u8`).  `fanOk` and `perfOk` are the outcomes the
actuation gateway would report for a fan-boost and a performance-cap request this
tick.  The source discards the fan-boost result (`let _ = set_fan_boost(true)`) and
propagates a performance-cap failure with `?` as the error built by `set_perf_pct`.
`(current_perf + 10)` is `u8` addition, hence the `% 256`. -/
def apply_thermal_control (current_temp target_temp : ℚ) (current_perf : ℕ)
    (fanOk perfOk : Bool) : ControlOutcome :=
  let diff := current_temp - target_temp
  if diff > 10 then
    { requests := [.fanBoost true, .perfPct 30],
      result := if perfOk then .ok "CRITICAL: Fan boost + 30%"
                else .err "Failed to set performance" }
  else if diff > 5 then
    { requests := [.fanBoost true, .perfPct 50],
      result := if perfOk then .ok "HIGH: Fan boost + 50%"
                else .err "Failed to set performance" }
  else if diff > 0 then
    let newPerf := calc_perf_for_target current_temp target_temp current_perf
    { requests := [.perfPct newPerf],
      result := if perfOk then .ok ("Adjusting to " ++ toString newPerf ++ "%")
                else .err "Failed to set performance" }
  else if diff < -5 then
    let newPerf := min ((current_perf + 10) % 256) 100
    { requests := [.perfPct newPerf],
      result := if perfOk then .ok ("Increasing to " ++ toString newPerf ++ "%")
                else .err "Failed to set performance" }
  else
    { requests := [], result := .ok "On target" }

/-- ASCII lowercasing of one character, the effect of Rust's `to_lowercase` on the
ASCII vendor status strings the source parses. -/
def asciiLower (c : Char) : Char :=
  if 'A' ≤ c ∧ c ≤ 'Z' then Char.ofNat (c.toNat + 32) else c

/-- Lowercased character sequence of a status string (`content.to_lowercase()`). -/
def rustLowercase (s : String) : List Char :=
  s.toList.map asciiLower

/-- Rust `str::contains(pat)`: `pat` occurs as a contiguous substring. -/
def listContains (needle : List Char) : List Char → Bool
  | [] => needle.isEmpty
  | c :: t => needle.isPrefixOf (c :: t) || listContains needle t

/-- `read_mode` in system.rs.  `content` is the text of `/tmp/cpu-mode.current` when
readable (`none` models an unreadable status artifact).  Case-insensitive substring
cascade: performance, comfort (demoted to Auto when "auto" or "-" also occurs),
balanced, quiet, auto, otherwise Unknown. -/
def read_mode (content : Option String) : Mode :=
  match content with
  | none => .Unknown
  | some c =>
    let lower := rustLowercase c
    if listContains "performance".toList lower then .Performance
    else if listContains "comfort".toList lower then
      if listContains "auto".toList lower || listContains "-".toList lower then .Auto
      else .Comfort
    else if listContains "balanced".toList lower then .Balanced
    else if listContains "quiet".toList lower then .Quiet
    else if listContains "auto".toList lower then .Auto
    else .Unknown

/-- `read_ambient_temp` in system.rs, over the already-scaled Celsius value parsed
from thermal_zone0 (`none` when the file is unreadable or unparsable): the reading
is kept only inside the plausibility window `15 < t < 50`, else `DEFAULT_AMBIENT`. -/
def read_ambient_temp (raw : Option ℚ) : ℚ :=
  match raw with
  | some t => if 15 < t ∧ t < 50 then t else DEFAULT_AMBIENT
  | none => DEFAULT_AMBIENT

/-- Per-sensor outcomes feeding one `ThermalState::read()`: each field is the
result of the corresponding `read_*` helper (`none` = that read failed).
Frequencies are the raw kHz values before the `khz / 1000` scaling. -/
structure SensorReads where
  cpuTemp : Option ℚ
  ambientRaw : Option ℚ
  perfPct : Option ℕ
  currentFreqKhz : Option ℕ
  maxFreqKhz : Option ℕ
  modeText : Option String
  platformProfile : Option String
  fanMode : Option ℕ

/-- `ThermalState` in system.rs (the complete thermal state snapshot). -/
structure ThermalState where
  cpu_temp : ℚ
  keyboard_temp : ℚ
  ambient_temp : ℚ
  perf_pct : ℕ
  current_freq_mhz : ℕ
  max_freq_mhz : ℕ
  mode : Mode
  platform_profile : String
  fan_boost : Bool

/-- `ThermalState::read` in system.rs: `read_cpu_temp().unwrap_or(50.0)`,
`read_ambient_temp()` (internal 28.0 fallback), keyboard estimate from those two,
`read_perf_pct().unwrap_or(50)`, `read_current_freq().unwrap_or(1000)`,
`read_max_freq().unwrap_or(4400)` (each `khz / 1000` on success), `read_mode()`,
`read_platform_profile()` (fallback "unknown"), `read_fan_mode() == 1`
(`read_fan_mode` itself defaults to 0). -/
def ThermalState.read (r : SensorReads) : ThermalState :=
  let cpu_temp := r.cpuTemp.getD 50
  let ambient_temp := read_ambient_temp r.ambientRaw
  let keyboard_temp := calculate_keyboard_temp cpu_temp ambient_temp
  { cpu_temp := cpu_temp
    keyboard_temp := keyboard_temp
    ambient_temp := ambient_temp
    perf_pct := r.perfPct.getD 50
    current_freq_mhz := (r.currentFreqKhz.map (fun khz => khz / 1000)).getD 1000
    max_freq_mhz := (r.maxFreqKhz.map (fun khz => khz / 1000)).getD 4400
    mode := read_mode r.modeText
    platform_profile := r.platformProfile.getD "unknown"
    fan_boost := r.fanMode.getD 0 == 1 }

/-- `TemperatureHistory` in app.rs: two `VecDeque<f32>` channels (front = oldest,
modelled as list head = oldest) plus the configured capacity. -/
structure TemperatureHistory where
  cpu_temps : List ℚ
  kbd_temps : List ℚ
  capacity : ℕ
deriving DecidableEq

/-- `TemperatureHistory::new` in app.rs: both channels empty. -/
def TemperatureHistory.new (capacity : ℕ) : TemperatureHistory :=
  { cpu_temps := [], kbd_temps := [], capacity := capacity }

/-- `TemperatureHistory::push` in app.rs: when `cpu_temps.len() >= capacity`, pop
the front (oldest) of both channels, then push both new values at the back. -/
def TemperatureHistory.push (h : TemperatureHistory) (cpu kbd : ℚ) : TemperatureHistory :=
  if h.cpu_temps.length ≥ h.capacity then
    { h with cpu_temps := h.cpu_temps.tail ++ [cpu], kbd_temps := h.kbd_temps.tail ++ [kbd] }
  else
    { h with cpu_temps := h.cpu_temps ++ [cpu], kbd_temps := h.kbd_temps ++ [kbd] }

/-- `TemperatureHistory::len` in app.rs. -/
def TemperatureHistory.len (h : TemperatureHistory) : ℕ :=
  h.cpu_temps.length

/-- A sequence of `push` calls, oldest first. -/
def TemperatureHistory.pushAll (h : TemperatureHistory) (entries : List (ℚ × ℚ)) :
    TemperatureHistory :=
  entries.foldl (fun acc e => acc.push e.1 e.2) h

/-! Helper lemmas shared by the claim theorems. -/

/-- Evaluation rule for `rustAsU8` when `q` lies in `[n, n+1)` for `n ≤ 255`. -/
lemma rustAsU8_eq (q : ℚ) (n : ℕ) (h1 : (n : ℚ) ≤ q) (h2 : q < n + 1) (h3 : q ≤ 255) :
    rustAsU8 q = n := by
  have h0 : ¬ q < 0 := not_lt.mpr (le_trans (by positivity) h1)
  have h255 : ¬ (255 : ℚ) < q := not_lt.mpr h3
  have hf : Int.floor q = (n : ℤ) :=
    Int.floor_eq_iff.mpr ⟨by exact_mod_cast h1, by push_cast; exact h2⟩
  simp [rustAsU8, h0, h255, hf]

/-- `rustAsU8` never exceeds an upper bound of 100 put on its input. -/
lemma rustAsU8_le_100 (q : ℚ) (h : q ≤ 100) : rustAsU8 q ≤ 100 := by
  rw [rustAsU8]
  split_ifs with h0 h255
  · omega
  · linarith
  · have hfl : Int.floor q ≤ 100 := by
      by_contra hc
      push_neg at hc
      have : ((101 : ℤ) : ℚ) ≤ q := Int.le_floor.mp hc
      push_cast at this
      linarith
    omega

/-- Sample evaluation: `calc_perf_for_target(45, 55, 50) = 55`. -/
lemma calc_perf_sample_low : calc_perf_for_target 45 55 50 = 55 := by
  rw [calc_perf_for_target, if_pos (by norm_num : (45:ℚ) ≤ 55)]
  rw [show ((50:ℕ):ℚ) * 1.1 ⊓ 100 = 55 by norm_num [min_def]]
  exact rustAsU8_eq 55 55 (by norm_num) (by norm_num) (by norm_num)

/-- Sample evaluation: `calc_perf_for_target(60, 50, 80) = 66`. -/
lemma calc_perf_sample_high : calc_perf_for_target 60 50 80 = 66 := by
  rw [calc_perf_for_target, if_neg (by norm_num : ¬ (60:ℚ) ≤ 50)]
  show min (max (rustAsU8 (((80:ℕ):ℚ) * ((50:ℚ)/60))) 20) 100 = 66
  rw [rustAsU8_eq (((80:ℕ):ℚ) * ((50:ℚ)/60)) 66 (by norm_num) (by norm_num) (by norm_num)]
  decide

/-- C1: apply_thermal_control evaluates its decision table in fixed order with the
first matching tier winning, where diff = current_temp - target_temp: if diff > 10
it requests fan boost ON and a fixed cap of 30 with message
"CRITICAL: Fan boost + 30%"; else if diff > 5 it requests fan boost ON and a fixed
cap of 50; else if diff > 0 it sets the cap to
current_perf * (target_temp / current_temp) rounded toward zero and clamped into
[20,100]; else if -5 <= diff <= 0 it issues no actuation request and reports
"On target" (amended: the source's message capitalizes the first word). -/
theorem apply_thermal_control_decision_table (ct tt : ℚ) (perf : ℕ) (fanOk perfOk : Bool) :
    (ct - tt > 10 →
      apply_thermal_control ct tt perf fanOk perfOk =
        { requests := [.fanBoost true, .perfPct 30],
          result := if perfOk then .ok "CRITICAL: Fan boost + 30%"
                    else .err "Failed to set performance" }) ∧
    (¬ ct - tt > 10 → ct - tt > 5 →
      (apply_thermal_control ct tt perf fanOk perfOk).requests =
        [.fanBoost true, .perfPct 50]) ∧
    (¬ ct - tt > 5 → ct - tt > 0 →
      (apply_thermal_control ct tt perf fanOk perfOk).requests =
        [.perfPct (min (max (rustAsU8 ((perf : ℚ) * (tt / ct))) 20) 100)]) ∧
    (-5 ≤ ct - tt → ct - tt ≤ 0 →
      apply_thermal_control ct tt perf fanOk perfOk =
        { requests := [], result := .ok "On target" }) := by
  refine ⟨?_, ?_, ?_, ?_⟩
  · intro h
    rw [apply_thermal_control]
    simp only [if_pos h]
  · intro h10 h5
    rw [apply_thermal_control]
    simp only [if_neg h10, if_pos h5]
  · intro h5 h0
    have h10 : ¬ ct - tt > 10 := fun hc => h5 (by linarith)
    have hle : ¬ ct ≤ tt := fun hc => absurd h0 (by simp; linarith)
    rw [apply_thermal_control]
    simp only [if_neg h10, if_neg h5, if_pos h0]
    rw [calc_perf_for_target, if_neg hle]
  · intro hm5 h0
    have h10 : ¬ ct - tt > 10 := by simp; linarith
    have h5 : ¬ ct - tt > 5 := by simp; linarith
    have hp : ¬ ct - tt > 0 := by simp; linarith
    have hm : ¬ ct - tt < -5 := by simp; linarith
    rw [apply_thermal_control]
    simp only [if_neg h10, if_neg h5, if_neg hp, if_neg hm]

/-- C1 witness: the critical tier at (70, 55). -/
theorem apply_thermal_control_decision_table_witness :
    apply_thermal_control 70 55 80 true true =
      { requests := [.fanBoost true, .perfPct 30],
        result := .ok "CRITICAL: Fan boost + 30%" } :=
  (apply_thermal_control_decision_table 70 55 80 true true).1 (by norm_num)

/-- C1 counterexample: at diff = -2 the returned message is "On target", not the
claimed "on target". -/
theorem apply_thermal_control_on_target_message_case :
    (apply_thermal_control 53 55 75 true true).result = .ok "On target" ∧
    CtrlResult.ok "On target" ≠ CtrlResult.ok "on target" := by
  constructor
  · rw [apply_thermal_control]
    norm_num
  · decide

/-- C4: the thermal-zone classifier is total with half-open boundaries:
below 40 Cool, [40,45) Comfort, [45,50) Optimal, [50,55) Warm, [55,65) Hot,
65 and above Critical; sample points 39.9→Cool, 40→Comfort, 44.9→Comfort,
45→Optimal, 54.9→Warm, 55→Hot, 64.9→Hot, 65→Critical. -/
theorem thermal_zone_classification (t : ℚ) :
    (t < 40 → ThermalZone.from_cpu_temp (.finite t) = .Cool) ∧
    (40 ≤ t → t < 45 → ThermalZone.from_cpu_temp (.finite t) = .Comfort) ∧
    (45 ≤ t → t < 50 → ThermalZone.from_cpu_temp (.finite t) = .Optimal) ∧
    (50 ≤ t → t < 55 → ThermalZone.from_cpu_temp (.finite t) = .Warm) ∧
    (55 ≤ t → t < 65 → ThermalZone.from_cpu_temp (.finite t) = .Hot) ∧
    (65 ≤ t → ThermalZone.from_cpu_temp (.finite t) = .Critical) ∧
    ThermalZone.from_cpu_temp (.finite 39.9) = .Cool ∧
    ThermalZone.from_cpu_temp (.finite 40) = .Comfort ∧
    ThermalZone.from_cpu_temp (.finite 44.9) = .Comfort ∧
    ThermalZone.from_cpu_temp (.finite 45) = .Optimal ∧
    ThermalZone.from_cpu_temp (.finite 54.9) = .Warm ∧
    ThermalZone.from_cpu_temp (.finite 55) = .Hot ∧
    ThermalZone.from_cpu_temp (.finite 64.9) = .Hot ∧
    ThermalZone.from_cpu_temp (.finite 65) = .Critical := by
  refine ⟨?_, ?_, ?_, ?_, ?_, ?_, ?_, ?_, ?_, ?_, ?_, ?_, ?_, ?_⟩
  · intro h
    simp [ThermalZone.from_cpu_temp, F32.lt, h]
  · intro h1 h2
    simp [ThermalZone.from_cpu_temp, F32.lt, not_lt.mpr h1, h2]
  · intro h1 h2
    simp [ThermalZone.from_cpu_temp, F32.lt, not_lt.mpr (by linarith : (40:ℚ) ≤ t),
      not_lt.mpr h1, h2]
  · intro h1 h2
    simp [ThermalZone.from_cpu_temp, F32.lt, not_lt.mpr (by linarith : (40:ℚ) ≤ t),
      not_lt.mpr (by linarith : (45:ℚ) ≤ t), not_lt.mpr h1, h2]
  · intro h1 h2
    simp [ThermalZone.from_cpu_temp, F32.lt, not_lt.mpr (by linarith : (40:ℚ) ≤ t),
      not_lt.mpr (by linarith : (45:ℚ) ≤ t), not_lt.mpr (by linarith : (50:ℚ) ≤ t),
      not_lt.mpr h1, h2]
  · intro h1
    simp [ThermalZone.from_cpu_temp, F32.lt, not_lt.mpr (by linarith : (40:ℚ) ≤ t),
      not_lt.mpr (by linarith : (45:ℚ) ≤ t), not_lt.mpr (by linarith : (50:ℚ) ≤ t),
      not_lt.mpr (by linarith : (55:ℚ) ≤ t), not_lt.mpr (by linarith : (65:ℚ) ≤ t)]
  all_goals norm_num [ThermalZone.from_cpu_temp, F32.lt]

/-- C4 witness: 42 °C classifies as Comfort. -/
theorem thermal_zone_classification_witness :
    ThermalZone.from_cpu_temp (.finite 42) = .Comfort :=
  (thermal_zone_classification 42).2.1 (by norm_num) (by norm_num)

/-- C2 (amended): when diff < -5, the new cap is min((current_perf + 10) mod 256, 100):
`current_perf + 10` is u8 addition, which wraps for current_perf ≥ 246; for
current_perf ≤ 245 this agrees with the claimed min(current_perf + 10, 100). -/
theorem apply_thermal_control_below_target_increase (ct tt : ℚ) (perf : ℕ)
    (fanOk perfOk : Bool) (hu8 : perf < 256) (h : ct - tt < -5) :
    (apply_thermal_control ct tt perf fanOk perfOk).requests =
      [.perfPct (min ((perf + 10) % 256) 100)] ∧
    (perf ≤ 245 → min ((perf + 10) % 256) 100 = min (perf + 10) 100) := by
  constructor
  · have h10 : ¬ ct - tt > 10 := by simp; linarith
    have h5 : ¬ ct - tt > 5 := by simp; linarith
    have hp : ¬ ct - tt > 0 := by simp; linarith
    rw [apply_thermal_control]
    simp only [if_neg h10, if_neg h5, if_neg hp, if_pos h]
  · intro hle
    rw [Nat.mod_eq_of_lt (by omega)]

/-- C2 witness: at current_perf = 80 and diff = -10 the issued cap request is 90. -/
theorem apply_thermal_control_below_target_increase_witness :
    (apply_thermal_control 40 50 80 true true).requests = [Request.perfPct 90] :=
  (apply_thermal_control_below_target_increase 40 50 80 true true (by norm_num)
    (by norm_num)).1

/-- C2 counterexample: at current_perf = 250 (a valid u8 read from the sensor) and
diff = -10, the u8 addition wraps: the issued cap is 4, not min(250 + 10, 100) = 100. -/
theorem apply_thermal_control_u8_wrap :
    (apply_thermal_control 40 50 250 true true).requests = [Request.perfPct 4] ∧
    (4 : ℕ) ≠ min (250 + 10) 100 := by
  constructor
  · rw [apply_thermal_control]
    norm_num
  · decide

/-- C3 (amended): calc_perf_for_target always returns at most 100, and whenever
current_temp > target_temp the result is clamped into [20,100]; the increase branch
(current_temp ≤ target_temp) is only capped above at 100 and can fall below 20 for
small current_perf.  The sample points hold: calc_perf_for_target(45,55,50) = 55 is
in (50,100], calc_perf_for_target(60,50,80) = 66 is in [20,80). -/
theorem calc_perf_for_target_bounds (ct tt : ℚ) (perf : ℕ) :
    calc_perf_for_target ct tt perf ≤ 100 ∧
    (tt < ct → 20 ≤ calc_perf_for_target ct tt perf) ∧
    50 < calc_perf_for_target 45 55 50 ∧ calc_perf_for_target 45 55 50 ≤ 100 ∧
    calc_perf_for_target 60 50 80 < 80 ∧ 20 ≤ calc_perf_for_target 60 50 80 := by
  refine ⟨?_, ?_, ?_, ?_, ?_, ?_⟩
  · rw [calc_perf_for_target]
    split_ifs with h
    · exact rustAsU8_le_100 _ (min_le_right _ _)
    · exact min_le_right _ _
  · intro h
    rw [calc_perf_for_target, if_neg (not_le.mpr h)]
    exact le_min (le_max_right _ _) (by norm_num)
  · rw [calc_perf_sample_low]
    decide
  · rw [calc_perf_sample_low]
    decide
  · rw [calc_perf_sample_high]
    decide
  · rw [calc_perf_sample_high]
    decide

/-- C3 witness: the above-target clamp at (60, 50, 80). -/
theorem calc_perf_for_target_bounds_witness :
    calc_perf_for_target 60 50 80 ≤ 100 ∧ 20 ≤ calc_perf_for_target 60 50 80 :=
  ⟨(calc_perf_for_target_bounds 60 50 80).1,
   (calc_perf_for_target_bounds 60 50 80).2.1 (by norm_num)⟩

/-- C3 counterexample: calc_perf_for_target(45, 55, 10) = 11, outside [20,100]. -/
theorem calc_perf_for_target_below_floor :
    calc_perf_for_target 45 55 10 = 11 ∧ ¬ 20 ≤ calc_perf_for_target 45 55 10 := by
  have h : calc_perf_for_target 45 55 10 = 11 := by
    rw [calc_perf_for_target, if_pos (by norm_num : (45:ℚ) ≤ 55)]
    rw [show ((10:ℕ):ℚ) * 1.1 ⊓ 100 = 11 by norm_num [min_def]]
    exact rustAsU8_eq 11 11 (by norm_num) (by norm_num) (by norm_num)
  rw [h]
  simp

/-- Pushing one more entry after a sequence of pushes. -/
lemma pushAll_concat (h : TemperatureHistory) (es : List (ℚ × ℚ)) (e : ℚ × ℚ) :
    h.pushAll (es ++ [e]) = (h.pushAll es).push e.1 e.2 := by
  simp [TemperatureHistory.pushAll, List.foldl_append]

/-- Characterization of a fresh buffer after a sequence of pushes, for positive
capacity: each channel holds the last `capacity` entries in insertion order. -/
lemma pushAll_new_channels (cap : ℕ) (hcap : 1 ≤ cap) (es : List (ℚ × ℚ)) :
    ((TemperatureHistory.new cap).pushAll es).cpu_temps
        = (es.map Prod.fst).drop (es.length - cap) ∧
    ((TemperatureHistory.new cap).pushAll es).kbd_temps
        = (es.map Prod.snd).drop (es.length - cap) ∧
    ((TemperatureHistory.new cap).pushAll es).capacity = cap := by
  induction es using List.reverseRecOn with
  | nil => simp [TemperatureHistory.pushAll, TemperatureHistory.new]
  | append_singleton es e ih =>
    obtain ⟨ihc, ihk, ihcap⟩ := ih
    have hlenc : ((TemperatureHistory.new cap).pushAll es).cpu_temps.length
        = es.length - (es.length - cap) := by
      rw [ihc, List.length_drop, List.length_map]
    rw [pushAll_concat, TemperatureHistory.push]
    by_cases hle : cap ≤ es.length
    · have hcond : ((TemperatureHistory.new cap).pushAll es).cpu_temps.length
          ≥ ((TemperatureHistory.new cap).pushAll es).capacity := by
        rw [hlenc, ihcap]
        omega
      rw [if_pos hcond]
      refine ⟨?_, ?_, ihcap⟩
      · show ((TemperatureHistory.new cap).pushAll es).cpu_temps.tail ++ [e.1] = _
        rw [ihc, ← List.drop_one, List.drop_drop]
        simp only [List.map_append, List.map_cons, List.map_nil, List.length_append,
          List.length_cons, List.length_nil, Nat.zero_add]
        rw [List.drop_append_of_le_length (by simp only [List.length_map]; omega)]
        rw [show es.length - cap + 1 = es.length + 1 - cap by omega]
      · show ((TemperatureHistory.new cap).pushAll es).kbd_temps.tail ++ [e.2] = _
        rw [ihk, ← List.drop_one, List.drop_drop]
        simp only [List.map_append, List.map_cons, List.map_nil, List.length_append,
          List.length_cons, List.length_nil, Nat.zero_add]
        rw [List.drop_append_of_le_length (by simp only [List.length_map]; omega)]
        rw [show es.length - cap + 1 = es.length + 1 - cap by omega]
    · have hcond : ¬ ((TemperatureHistory.new cap).pushAll es).cpu_temps.length
          ≥ ((TemperatureHistory.new cap).pushAll es).capacity := by
        rw [hlenc, ihcap]
        omega
      rw [if_neg hcond]
      have hz : es.length - cap = 0 := by omega
      have hz' : es.length + 1 - cap = 0 := by omega
      refine ⟨?_, ?_, ihcap⟩
      · show ((TemperatureHistory.new cap).pushAll es).cpu_temps ++ [e.1] = _
        rw [ihc, hz, List.map_append, List.length_append]
        simp [hz']
      · show ((TemperatureHistory.new cap).pushAll es).kbd_temps ++ [e.2] = _
        rw [ihk, hz, List.map_append, List.length_append]
        simp [hz']

/-- C5 (amended, for positive capacity): a fresh buffer is empty; after any
sequence of pushes the length is min(capacity, number pushed), hence never exceeds
the capacity; the contents are exactly the most recent `capacity` entries in
insertion order, i.e. pushing `capacity + k` entries evicts the oldest `k` in
strict FIFO order.  (A capacity-0 buffer instead retains the latest entry.) -/
theorem temperature_history_fifo (cap : ℕ) (hcap : 1 ≤ cap) (es : List (ℚ × ℚ)) :
    (TemperatureHistory.new cap).len = 0 ∧
    ((TemperatureHistory.new cap).pushAll es).len ≤ cap ∧
    ((TemperatureHistory.new cap).pushAll es).len = min cap es.length ∧
    ((TemperatureHistory.new cap).pushAll es).cpu_temps
        = (es.map Prod.fst).drop (es.length - cap) ∧
    ((TemperatureHistory.new cap).pushAll es).kbd_temps
        = (es.map Prod.snd).drop (es.length - cap) := by
  obtain ⟨hc, hk, -⟩ := pushAll_new_channels cap hcap es
  have hlen : ((TemperatureHistory.new cap).pushAll es).len = min cap es.length := by
    rw [TemperatureHistory.len, hc, List.length_drop, List.length_map]
    omega
  exact ⟨rfl, by rw [hlen]; omega, hlen, hc, hk⟩

/-- C5 witness: capacity 2, three pushes; the oldest entry is evicted FIFO. -/
theorem temperature_history_fifo_witness :
    ((TemperatureHistory.new 2).pushAll [(1, 10), (2, 20), (3, 30)]).len = 2 ∧
    ((TemperatureHistory.new 2).pushAll [(1, 10), (2, 20), (3, 30)]).cpu_temps = [2, 3] ∧
    ((TemperatureHistory.new 2).pushAll [(1, 10), (2, 20), (3, 30)]).kbd_temps = [20, 30] :=
  ⟨(temperature_history_fifo 2 (by decide) [(1, 10), (2, 20), (3, 30)]).2.2.1,
   (temperature_history_fifo 2 (by decide) [(1, 10), (2, 20), (3, 30)]).2.2.2.1,
   (temperature_history_fifo 2 (by decide) [(1, 10), (2, 20), (3, 30)]).2.2.2.2⟩

/-- C5 counterexample: with configured capacity 0, one push leaves len() = 1, which
exceeds the configured capacity. -/
theorem temperature_history_zero_capacity :
    ((TemperatureHistory.new 0).push 42 36).capacity = 0 ∧
    ((TemperatureHistory.new 0).push 42 36).len = 1 := ⟨rfl, rfl⟩

/-- C6: the snapshot builder is total (a total Lean function of the per-sensor
outcomes) and each unreadable field is independently replaced by its documented
fallback: CPU 50 °C, performance 50, current/max frequency 1000/4400 MHz, mode
Unknown, platform profile "unknown", fan boost false, ambient 28 °C, with the
ambient fallback also feeding the keyboard estimate. -/
theorem thermal_state_read_fallbacks (r : SensorReads) :
    (r.cpuTemp = none → (ThermalState.read r).cpu_temp = 50) ∧
    (r.perfPct = none → (ThermalState.read r).perf_pct = 50) ∧
    (r.currentFreqKhz = none → (ThermalState.read r).current_freq_mhz = 1000) ∧
    (r.maxFreqKhz = none → (ThermalState.read r).max_freq_mhz = 4400) ∧
    (r.modeText = none → (ThermalState.read r).mode = .Unknown) ∧
    (r.platformProfile = none → (ThermalState.read r).platform_profile = "unknown") ∧
    (r.fanMode = none → (ThermalState.read r).fan_boost = false) ∧
    (r.ambientRaw = none → (ThermalState.read r).ambient_temp = 28) ∧
    (∀ t, r.ambientRaw = some t → ¬ (15 < t ∧ t < 50) →
      (ThermalState.read r).ambient_temp = 28) ∧
    ((ThermalState.read r).keyboard_temp =
      calculate_keyboard_temp (ThermalState.read r).cpu_temp
        (ThermalState.read r).ambient_temp) := by
  refine ⟨?_, ?_, ?_, ?_, ?_, ?_, ?_, ?_, ?_, ?_⟩
  · intro h
    simp [ThermalState.read, h]
  · intro h
    simp [ThermalState.read, h]
  · intro h
    simp [ThermalState.read, h]
  · intro h
    simp [ThermalState.read, h]
  · intro h
    simp [ThermalState.read, h, read_mode]
  · intro h
    simp [ThermalState.read, h]
  · intro h
    simp [ThermalState.read, h]
  · intro h
    simp [ThermalState.read, h, read_ambient_temp, DEFAULT_AMBIENT]
  · intro t ht hw
    simp [ThermalState.read, ht, read_ambient_temp, hw, DEFAULT_AMBIENT]
  · simp [ThermalState.read]

/-- C6 witness: with every sensor read failed, the snapshot is the documented
fallback record. -/
theorem thermal_state_read_fallbacks_witness :
    (ThermalState.read ⟨none, none, none, none, none, none, none, none⟩).cpu_temp = 50 ∧
    (ThermalState.read ⟨none, none, none, none, none, none, none, none⟩).perf_pct = 50 ∧
    (ThermalState.read ⟨none, none, none, none, none, none, none, none⟩).current_freq_mhz = 1000 ∧
    (ThermalState.read ⟨none, none, none, none, none, none, none, none⟩).max_freq_mhz = 4400 ∧
    (ThermalState.read ⟨none, none, none, none, none, none, none, none⟩).mode = .Unknown ∧
    (ThermalState.read ⟨none, none, none, none, none, none, none, none⟩).platform_profile = "unknown" ∧
    (ThermalState.read ⟨none, none, none, none, none, none, none, none⟩).fan_boost = false ∧
    (ThermalState.read ⟨none, none, none, none, none, none, none, none⟩).ambient_temp = 28 :=
  ⟨(thermal_state_read_fallbacks _).1 rfl,
   (thermal_state_read_fallbacks _).2.1 rfl,
   (thermal_state_read_fallbacks _).2.2.1 rfl,
   (thermal_state_read_fallbacks _).2.2.2.1 rfl,
   (thermal_state_read_fallbacks _).2.2.2.2.1 rfl,
   (thermal_state_read_fallbacks _).2.2.2.2.2.1 rfl,
   (thermal_state_read_fallbacks _).2.2.2.2.2.2.1 rfl,
   (thermal_state_read_fallbacks _).2.2.2.2.2.2.2.1 rfl⟩

/-- C7: the keyboard estimate is ambient + (cpu - ambient) * 0.45; at cpu = ambient
it equals ambient exactly, and the three sample points hold within 0.1. -/
theorem calculate_keyboard_temp_model (cpu amb : ℚ) :
    calculate_keyboard_temp cpu amb = amb + (cpu - amb) * 0.45 ∧
    THERMAL_ATTENUATION = 0.45 ∧
    (cpu = amb → calculate_keyboard_temp cpu amb = amb) ∧
    |calculate_keyboard_temp 50 28 - 37.9| < 0.1 ∧
    |calculate_keyboard_temp 80 25 - 49.75| < 0.1 ∧
    |calculate_keyboard_temp 60 20 - 38| < 0.1 := by
  refine ⟨rfl, rfl, ?_, ?_, ?_, ?_⟩
  · intro h
    rw [calculate_keyboard_temp, h]
    ring
  all_goals norm_num [calculate_keyboard_temp, THERMAL_ATTENUATION, abs_lt]

/-- C7 witness: at cpu = ambient = 28 the estimate is exactly 28. -/
theorem calculate_keyboard_temp_model_witness :
    calculate_keyboard_temp 28 28 = 28 :=
  (calculate_keyboard_temp_model 28 28).2.2.1 rfl

/-- C8: the control decision is entirely independent of the fan-boost outcome (the
source discards it), the cap request is still issued in tiers 1-2 after a failed
fan-boost request, and whenever a tier issues a cap request, a failed cap actuation
makes the control decision fail. -/
theorem apply_thermal_control_fan_nonfatal (ct tt : ℚ) (perf : ℕ) (fanOk perfOk : Bool) :
    apply_thermal_control ct tt perf fanOk perfOk =
      apply_thermal_control ct tt perf true perfOk ∧
    (ct - tt > 10 →
      (apply_thermal_control ct tt perf false perfOk).requests =
        [.fanBoost true, .perfPct 30]) ∧
    (¬ ct - tt > 10 → ct - tt > 5 →
      (apply_thermal_control ct tt perf false perfOk).requests =
        [.fanBoost true, .perfPct 50]) ∧
    (perfOk = false →
      (∃ p, Request.perfPct p ∈ (apply_thermal_control ct tt perf fanOk perfOk).requests) →
      (apply_thermal_control ct tt perf fanOk perfOk).result =
        .err "Failed to set performance") := by
  refine ⟨rfl, ?_, ?_, ?_⟩
  · intro h
    rw [apply_thermal_control]
    simp only [if_pos h]
  · intro h10 h5
    rw [apply_thermal_control]
    simp only [if_neg h10, if_pos h5]
  · intro hpf hex
    subst hpf
    obtain ⟨p, hp⟩ := hex
    rw [apply_thermal_control] at hp ⊢
    split_ifs at hp ⊢ <;> simp_all

/-- C8 witness: tier 1 at (70, 55) with a failed fan-boost request still issues the
30% cap request; with a failed cap request the decision fails. -/
theorem apply_thermal_control_fan_nonfatal_witness :
    (apply_thermal_control 70 55 80 false true).requests =
      [Request.fanBoost true, Request.perfPct 30] ∧
    (apply_thermal_control 70 55 80 false false).result =
      CtrlResult.err "Failed to set performance" :=
  ⟨(apply_thermal_control_fan_nonfatal 70 55 80 false true).2.1 (by norm_num),
   (apply_thermal_control_fan_nonfatal 70 55 80 false false).2.2.2 rfl
     ⟨30, by rw [(apply_thermal_control_fan_nonfatal 70 55 80 false false).2.1 (by norm_num)]; simp⟩⟩

/-- C9: mode parsing is a case-insensitive substring cascade over the five mode
names; a text matching "comfort" that also contains "auto" or a hyphen is
reinterpreted as Auto ("comfort-OPTIMAL" parses as Auto, plain "comfort" as
Comfort); a text matching none of the five names, or an unreadable artifact,
yields Unknown. -/
theorem read_mode_parsing (c : String) :
    read_mode none = .Unknown ∧
    (listContains "performance".toList (rustLowercase c) = false →
     listContains "comfort".toList (rustLowercase c) = false →
     listContains "balanced".toList (rustLowercase c) = false →
     listContains "quiet".toList (rustLowercase c) = false →
     listContains "auto".toList (rustLowercase c) = false →
     read_mode (some c) = .Unknown) ∧
    (listContains "performance".toList (rustLowercase c) = true →
     read_mode (some c) = .Performance) ∧
    (listContains "performance".toList (rustLowercase c) = false →
     listContains "comfort".toList (rustLowercase c) = true →
     (listContains "auto".toList (rustLowercase c)
       || listContains "-".toList (rustLowercase c)) = true →
     read_mode (some c) = .Auto) ∧
    (listContains "performance".toList (rustLowercase c) = false →
     listContains "comfort".toList (rustLowercase c) = true →
     (listContains "auto".toList (rustLowercase c)
       || listContains "-".toList (rustLowercase c)) = false →
     read_mode (some c) = .Comfort) ∧
    (listContains "performance".toList (rustLowercase c) = false →
     listContains "comfort".toList (rustLowercase c) = false →
     listContains "balanced".toList (rustLowercase c) = true →
     read_mode (some c) = .Balanced) ∧
    (listContains "performance".toList (rustLowercase c) = false →
     listContains "comfort".toList (rustLowercase c) = false →
     listContains "balanced".toList (rustLowercase c) = false →
     listContains "quiet".toList (rustLowercase c) = true →
     read_mode (some c) = .Quiet) ∧
    (listContains "performance".toList (rustLowercase c) = false →
     listContains "comfort".toList (rustLowercase c) = false →
     listContains "balanced".toList (rustLowercase c) = false →
     listContains "quiet".toList (rustLowercase c) = false →
     listContains "auto".toList (rustLowercase c) = true →
     read_mode (some c) = .Auto) ∧
    read_mode (some "comfort-OPTIMAL") = .Auto ∧
    read_mode (some "Comfort") = .Comfort ∧
    read_mode (some "auto") = .Auto ∧
    read_mode (some "BALANCED mode") = .Balanced ∧
    read_mode (some "Quiet") = .Quiet := by
  refine ⟨rfl, ?_, ?_, ?_, ?_, ?_, ?_, ?_, by decide, by decide, by decide, by decide,
    by decide⟩
  · intro h1 h2 h3 h4 h5
    simp_all [read_mode]
  · intro h1
    simp_all [read_mode]
  · intro h1 h2 h3
    simp_all [read_mode]
  · intro h1 h2 h3
    simp_all [read_mode]
  · intro h1 h2 h3
    simp_all [read_mode]
  · intro h1 h2 h3 h4
    simp_all [read_mode]
  · intro h1 h2 h3 h4 h5
    simp_all [read_mode]

/-- C9 witness: a text matching none of the five names parses as Unknown. -/
theorem read_mode_parsing_witness :
    read_mode (some "xyz") = .Unknown :=
  (read_mode_parsing "xyz").2.1 (by decide) (by decide) (by decide) (by decide) (by decide)

/-- C10: the thermal-zone classifier is total on the non-finite f32 values: NaN and
positive infinity classify as Critical (every guard in the cascade compares false
for NaN), negative infinity as Cool. -/
theorem thermal_zone_nonfinite_total :
    ThermalZone.from_cpu_temp .nan = .Critical ∧
    ThermalZone.from_cpu_temp .posInf = .Critical ∧
    ThermalZone.from_cpu_temp .negInf = .Cool := ⟨rfl, rfl, rfl⟩
